import Mathlib

/-!
Verification of the BotanicaX scoring engine.

Shallow embedding of
  * `BotanicaX-functions/CalculateSustainabilityScore/__init__.py`
    (class `SustainabilityCalculator` and the per-farm loop of `main`), and
  * `scripts/fire_detector.py` (`FireDetector.calculate_distance` and
    `FireDetector.analyze_fire_risk`).

Numeric values that Python holds as floats are modelled as exact rationals
(`ℚ`); the fire-distance computation uses `Real.sqrt` and is modelled over
`ℝ`.  Python exceptions raised by `float(...)` / `int(...)` on non-numeric
data are modelled by `Option`: `none` is the raising computation.
-/

namespace BotanicaX

/-- Python `int(q)` for a numeric `q`: truncation toward zero. -/
def pyTrunc (q : ℚ) : ℤ :=
  if q < 0 then -Int.floor (-q) else Int.floor q

/-- Round a rational to the nearest integer, ties to the even integer
(the rounding mode of Python `round`). -/
def rheZ (q : ℚ) : ℤ :=
  let f := Int.floor q
  let r := q - f
  if r < 1/2 then f
  else if 1/2 < r then f + 1
  else if Even f then f else f + 1

/-- Python `round(q, 1)` on an exact rational value. -/
def pyRound1 (q : ℚ) : ℚ :=
  (rheZ (10 * q) : ℚ) / 10

/-- Round a real to the nearest integer, ties to even (Python `round`). -/
noncomputable def rheR (x : ℝ) : ℤ :=
  let f := Int.floor x
  let r := x - f
  if r < 1/2 then f
  else if 1/2 < r then f + 1
  else if Even f then f else f + 1

/-- Python `round(x, 1)` on a real value. -/
noncomputable def pyRound1R (x : ℝ) : ℝ :=
  (rheR (10 * x) : ℝ) / 10

/-- A field value found in a reading or incident record: either a numeric
value or a non-numeric one (on which `float(...)` / `int(...)` raise). -/
inductive FieldVal where
  | num (q : ℚ)
  | nonNum
deriving DecidableEq, Repr

/-- `float(record.get(key, default))`: a missing field (`none`) falls back to
the numeric default; a present numeric field converts; a present non-numeric
field raises (`none` result). -/
def toFloat (fld : Option FieldVal) (default : ℚ) : Option ℚ :=
  match fld with
  | none => some default
  | some (.num q) => some q
  | some .nonNum => none

/-- `int(record.get(key, default))`: as `toFloat`, then truncation toward
zero. -/
def toInt (fld : Option FieldVal) (default : ℚ) : Option ℤ :=
  (toFloat fld default).map pyTrunc

/-- The numeric value of a field under its default, for specification
statements about well-formed records (where no field is `.nonNum`). -/
def fieldVal (fld : Option FieldVal) (default : ℚ) : ℚ :=
  match fld with
  | none => default
  | some (.num q) => q
  | some .nonNum => 0

/-- Python `sum(float(item.get(...)) for item in w)`: left-to-right sum of
the converted values; the first conversion failure aborts the whole sum. -/
def sumFloats {α : Type} (f : α → Option ℚ) : List α → Option ℚ
  | [] => some 0
  | a :: as => do
    let x ← f a
    let s ← sumFloats f as
    some (x + s)

/-- Average of `g` over a list, as used in statements about well-formed
windows: `(Σ g r) / length`. -/
def avgOf {α : Type} (g : α → ℚ) (w : List α) : ℚ :=
  (w.map g).sum / (w.length : ℚ)

/-! ### Sensor reading records -/

/-- A soil sensor reading (`sensor_type = 'soil'`); only the metric fields
the calculator reads are modelled.  `none` = field absent. -/
structure SoilReading where
  soil_ph : Option FieldVal
  soil_moisture : Option FieldVal
  nitrogen : Option FieldVal
deriving DecidableEq, Repr

/-- A weather reading used by the water-efficiency calculator. -/
structure WeatherReading where
  rainfall_1h : Option FieldVal
  humidity : Option FieldVal
deriving DecidableEq, Repr

/-- An air-quality sensor reading. -/
structure AirReading where
  co2 : Option FieldVal
  ch4 : Option FieldVal
deriving DecidableEq, Repr

/-- A stored fire-alert record, as read back by the risk-management
calculator (`fire_alerts[0].get('risk_level', 'low')`). -/
structure FireAlertRec where
  risk_level : Option String
deriving DecidableEq, Repr

/-! ### Per-metric band scores (`_score_ph_level` etc.) -/

/-- `SustainabilityCalculator._score_ph_level`. -/
def score_ph_level (ph : ℚ) : ℚ :=
  if 6 ≤ ph ∧ ph ≤ 7.5 then 100
  else if (5.5 ≤ ph ∧ ph < 6) ∨ (7.5 < ph ∧ ph ≤ 8) then 80
  else 60

/-- `SustainabilityCalculator._score_moisture_level`. -/
def score_moisture_level (moisture : ℚ) : ℚ :=
  if 40 ≤ moisture ∧ moisture ≤ 70 then 100
  else if (30 ≤ moisture ∧ moisture < 40) ∨ (70 < moisture ∧ moisture ≤ 80) then 80
  else 60

/-- `SustainabilityCalculator._score_nitrogen_level`. -/
def score_nitrogen_level (nitrogen : ℚ) : ℚ :=
  if 50 ≤ nitrogen ∧ nitrogen ≤ 100 then 100
  else if 30 ≤ nitrogen ∧ nitrogen < 50 then 80
  else 60

/-! ### Component calculators

Each calculator is given the already-fetched reading window (the database
query is a collaborator).  A `none` result is a raised Python exception
(caught later by `calculate_comprehensive_score`). -/

/-- `SustainabilityCalculator._calculate_soil_health_score` applied to the
fetched soil window. -/
def calculate_soil_health_score (w : List SoilReading) : Option ℚ :=
  if w = [] then some 70
  else do
    let sph ← sumFloats (fun r => toFloat r.soil_ph 7) w
    let smo ← sumFloats (fun r => toFloat r.soil_moisture 50) w
    let sni ← sumFloats (fun r => toFloat r.nitrogen 50) w
    let avg_ph := sph / (w.length : ℚ)
    let avg_moisture := smo / (w.length : ℚ)
    let avg_nitrogen := sni / (w.length : ℚ)
    let ph_score := score_ph_level avg_ph
    let moisture_score := score_moisture_level avg_moisture
    let nitrogen_score := score_nitrogen_level avg_nitrogen
    some (pyRound1 (ph_score * 0.4 + moisture_score * 0.4 + nitrogen_score * 0.2))

/-- `SustainabilityCalculator._calculate_water_efficiency_score` applied to
the fetched weather window. -/
def calculate_water_efficiency_score (w : List WeatherReading) : Option ℚ :=
  if w = [] then some 70
  else do
    let srain ← sumFloats (fun r => toFloat r.rainfall_1h 0) w
    let shum ← sumFloats (fun r => toFloat r.humidity 50) w
    let total_rainfall := srain
    let avg_humidity := shum / (w.length : ℚ)
    let efficiency_score : ℚ :=
      if total_rainfall < 10 then
        if avg_humidity > 60 then 85 else 60
      else 80
    some (pyRound1 efficiency_score)

/-- `SustainabilityCalculator._calculate_air_quality_score` applied to the
fetched air-quality window. -/
def calculate_air_quality_score (w : List AirReading) : Option ℚ :=
  if w = [] then some 75
  else do
    let sco2 ← sumFloats (fun r => toFloat r.co2 400) w
    let sch4 ← sumFloats (fun r => toFloat r.ch4 0) w
    let avg_co2 := sco2 / (w.length : ℚ)
    let avg_ch4 := sch4 / (w.length : ℚ)
    let co2_score := max 0 (100 - (avg_co2 - 400) * 0.1)
    let ch4_score := max 0 (100 - avg_ch4 * 10)
    let air_score := (co2_score + ch4_score) / 2
    some (pyRound1 (min air_score 100))

/-- `SustainabilityCalculator._calculate_crop_health_score`: soil health as
proxy, scaled by 0.9 and rounded. -/
def calculate_crop_health_score (w : List SoilReading) : Option ℚ :=
  (calculate_soil_health_score w).map (fun s => pyRound1 (s * 0.9))

/-- `SustainabilityCalculator._calculate_risk_management_score` applied to
the result of the `TOP 1` fire-alert query (most recent alert first). -/
def calculate_risk_management_score (alerts : List FireAlertRec) : ℚ :=
  let risk_score : ℚ := 100
  match alerts with
  | [] => max 0 risk_score
  | a :: _ =>
    let fire_risk := a.risk_level.getD "low"
    let rs :=
      if fire_risk = "critical" then risk_score - 40
      else if fire_risk = "high" then risk_score - 25
      else if fire_risk = "moderate" then risk_score - 10
      else risk_score
    max 0 rs

/-! ### Aggregation, grade, comprehensive score -/

/-- The five component scores, in the insertion order of the `components`
dictionary of `calculate_comprehensive_score`. -/
structure Components where
  soil_health : ℚ
  water_efficiency : ℚ
  air_quality : ℚ
  crop_health : ℚ
  risk_management : ℚ
deriving DecidableEq, Repr

/-- The aggregation loop of `calculate_comprehensive_score` (lines 79-85):
`overall_score = Σ score · weight` over the components dictionary with the
weights of `SustainabilityCalculator.__init__`, then `int(overall_score * 10)`. -/
def overall10 (c : Components) : ℤ :=
  pyTrunc ((c.soil_health * 0.35 + c.water_efficiency * 0.25 + c.air_quality * 0.20
    + c.crop_health * 0.10 + c.risk_management * 0.10) * 10)

/-- `SustainabilityCalculator._determine_grade`. -/
def determine_grade (score : ℤ) : String :=
  if score ≥ 900 then "A+"
  else if score ≥ 850 then "A"
  else if score ≥ 800 then "A-"
  else if score ≥ 750 then "B+"
  else if score ≥ 700 then "B"
  else if score ≥ 650 then "B-"
  else if score ≥ 600 then "C+"
  else "C"

/-- The record built by `calculate_comprehensive_score` (the timestamp,
assigned from the wall clock, is outside the model). -/
structure ScoreData where
  farm_id : String
  overall_score : ℤ
  grade : String
  components : Components
  calculation_method : String
deriving DecidableEq, Repr

/-- `SustainabilityCalculator.calculate_comprehensive_score`, applied to the
windows its five database queries would fetch.  The `try/except` that wraps
the body returns `None` on any exception, which is the `Option.bind`
propagation of a `none` from a component calculator. -/
def calculate_comprehensive_score (farm_id : String) (soilW : List SoilReading)
    (weatherW : List WeatherReading) (airW : List AirReading)
    (alerts : List FireAlertRec) : Option ScoreData := do
  let soil_score ← calculate_soil_health_score soilW
  let water_score ← calculate_water_efficiency_score weatherW
  let air_score ← calculate_air_quality_score airW
  let crop_score ← calculate_crop_health_score soilW
  let risk_score := calculate_risk_management_score alerts
  let components : Components :=
    ⟨soil_score, water_score, air_score, crop_score, risk_score⟩
  let final_score := overall10 components
  some { farm_id := farm_id, overall_score := final_score,
         grade := determine_grade final_score, components := components,
         calculation_method := "weighted_average" }

/-- A farm record as returned by `get_active_farms`. -/
structure Farm where
  id : String
  name : String
deriving DecidableEq, Repr

/-- The per-farm loop of `main`: for each farm the score computation (whose
database interaction makes it a parameter here) runs inside a `try/except`;
`.error` is a raised exception (caught and logged), `.ok none` is a falsy
`score_data` (not stored), `.ok (some d)` is stored.  The result is the list
of stored records in order. -/
def main_score_loop (farms : List Farm)
    (calcFor : String → Except String (Option ScoreData)) : List ScoreData :=
  farms.foldl (fun stored farm =>
    match calcFor farm.id with
    | .ok (some score_data) => stored ++ [score_data]
    | .ok none => stored
    | .error _ => stored) []

/-! ### Fire detector (`scripts/fire_detector.py`) -/

/-- One fire-incident record from the FIRMS CSV; only the fields
`analyze_fire_risk` reads are modelled.  `none` = field absent
(`fire.get(key, 0)` falls back to the numeric default `0`). -/
structure FireIncident where
  latitude : Option FieldVal
  longitude : Option FieldVal
  confidence : Option FieldVal
deriving DecidableEq, Repr

/-- The three conversions at the top of the incident loop of
`analyze_fire_risk`: `float(fire.get('latitude', 0))`,
`float(fire.get('longitude', 0))`, `int(fire.get('confidence', 0))`.
A `none` result is the `ValueError` the `except` clause swallows. -/
def parse_incident (fire : FireIncident) : Option (ℚ × ℚ × ℤ) := do
  let fire_lat ← toFloat fire.latitude 0
  let fire_lon ← toFloat fire.longitude 0
  let confidence ← toInt fire.confidence 0
  some (fire_lat, fire_lon, confidence)

/-- An incident is well-formed when none of its three conversions raises. -/
def wellFormedIncident (fire : FireIncident) : Bool :=
  (parse_incident fire).isSome

/-- `FireDetector.calculate_distance`: flat-earth degree distance times 111. -/
noncomputable def calculate_distance (lat1 lon1 lat2 lon2 : ℝ) : ℝ :=
  let dlat := lat2 - lat1
  let dlon := lon2 - lon1
  Real.sqrt (dlat ^ 2 + dlon ^ 2) * 111

/-- Loop state of `analyze_fire_risk`: `closest = none` models the initial
`float` infinity. -/
structure FireStats where
  nearby_fires : ℕ
  high_confidence_fires : ℕ
  closest_distance : Option ℝ

/-- `closest_distance < c` in the source, where `none` is infinity (so the
comparison is false). -/
def closestLt (closest : Option ℝ) (c : ℝ) : Prop :=
  match closest with
  | none => False
  | some x => x < c

open Classical in
/-- One iteration of the incident loop of `analyze_fire_risk`. -/
noncomputable def fireStep (lat lon : ℝ) (st : FireStats) (fire : FireIncident) :
    FireStats :=
  match parse_incident fire with
  | none => st
  | some (fire_lat, fire_lon, confidence) =>
    let distance := calculate_distance lat lon (fire_lat : ℝ) (fire_lon : ℝ)
    if distance < 50 then
      { nearby_fires := st.nearby_fires + 1,
        high_confidence_fires :=
          if confidence > 75 then st.high_confidence_fires + 1
          else st.high_confidence_fires,
        closest_distance :=
          some (match st.closest_distance with
                | none => distance
                | some c => min c distance) }
    else st

/-- The whole incident loop of `analyze_fire_risk`, starting from
`nearby_fires = 0`, `high_confidence_fires = 0`, `closest_distance = inf`. -/
noncomputable def fireStats (lat lon : ℝ) (incidents : List FireIncident) :
    FireStats :=
  incidents.foldl (fireStep lat lon) ⟨0, 0, none⟩

/-- The dictionary returned by `analyze_fire_risk` (timestamp-free). -/
structure FireRiskAssessment where
  farm_id : String
  risk_level : String
  nearby_fires : ℕ
  closest_fire_km : Option ℝ
  recommendation : String

open Classical in
/-- The risk ladder and result record of `analyze_fire_risk` (lines 94-114),
as a function of the loop state. -/
noncomputable def riskAssessment (farm_id : String) (st : FireStats) :
    FireRiskAssessment :=
  let rl :=
    if st.high_confidence_fires > 2 ∨ closestLt st.closest_distance 5 then
      ("critical", "Immediate evacuation may be required")
    else if st.high_confidence_fires > 0 ∨ closestLt st.closest_distance 15 then
      ("high", "Prepare for potential evacuation")
    else if st.nearby_fires > 0 then
      ("moderate", "Monitor situation closely")
    else
      ("low", "Continue normal operations")
  { farm_id := farm_id, risk_level := rl.1, nearby_fires := st.nearby_fires,
    closest_fire_km := st.closest_distance.map pyRound1R,
    recommendation := rl.2 }

/-- `FireDetector.analyze_fire_risk`. -/
noncomputable def analyze_fire_risk (farm_id : String) (lat lon : ℝ)
    (fire_incidents : List FireIncident) : FireRiskAssessment :=
  if fire_incidents = [] then
    { farm_id := farm_id, risk_level := "low", nearby_fires := 0,
      closest_fire_km := none, recommendation := "Continue normal operations" }
  else
    riskAssessment farm_id (fireStats lat lon fire_incidents)

/-! ### Specification-side definitions (for refinement statements) -/

open Classical in
/-- Modelled from the spec: the fire-risk tier ladder of spec section 4.3,
evaluated first-match-wins on the high-confidence count, closest distance and
nearby count. -/
noncomputable def specRiskLevel (highConf nearby : ℕ) (closest : Option ℝ) :
    String :=
  if highConf > 2 ∨ closestLt closest 5 then "critical"
  else if highConf > 0 ∨ closestLt closest 15 then "high"
  else if nearby > 0 then "moderate"
  else "low"

/-- Modelled from the spec: the fixed recommendation string per tier. -/
def specRecommendation (tier : String) : String :=
  if tier = "low" then "Continue normal operations"
  else if tier = "moderate" then "Monitor situation closely"
  else if tier = "high" then "Prepare for potential evacuation"
  else "Immediate evacuation may be required"

/-- Modelled from the spec: the ordered first-match-wins grade ladder of
spec section 4.2. -/
def specGrade (score : ℤ) : String :=
  if score ≥ 900 then "A+"
  else if score ≥ 850 then "A"
  else if score ≥ 800 then "A-"
  else if score ≥ 750 then "B+"
  else if score ≥ 700 then "B"
  else if score ≥ 650 then "B-"
  else if score ≥ 600 then "C+"
  else "C"

/-! ### Supporting lemmas -/

theorem pyTrunc_eq_floor {q : ℚ} (h : 0 ≤ q) : pyTrunc q = Int.floor q := by
  unfold pyTrunc
  rw [if_neg (not_lt.mpr h)]

theorem toFloat_eq_of_wf (fld : Option FieldVal) (d : ℚ)
    (h : fld ≠ some .nonNum) : toFloat fld d = some (fieldVal fld d) := by
  match fld with
  | none => rfl
  | some (.num q) => rfl
  | some .nonNum => exact absurd rfl h

theorem sumFloats_eq_of_wf {α : Type} (f : α → Option ℚ) (g : α → ℚ)
    (w : List α) (h : ∀ a ∈ w, f a = some (g a)) :
    sumFloats f w = some ((w.map g).sum) := by
  induction w with
  | nil => rfl
  | cons a as ih =>
    have ha := h a (List.mem_cons_self a as)
    have has : ∀ b ∈ as, f b = some (g b) := fun b hb => h b (List.mem_cons_of_mem a hb)
    simp [sumFloats, ha, ih has]

theorem sumFloats_eq_none {α : Type} (f : α → Option ℚ) {w : List α} {a : α}
    (ha : a ∈ w) (hf : f a = none) : sumFloats f w = none := by
  induction w with
  | nil => exact absurd ha (List.not_mem_nil a)
  | cons b bs ih =>
    rcases List.mem_cons.mp ha with hab | hmem
    · subst hab
      simp [sumFloats, hf]
    · cases hb : f b with
      | none => simp [sumFloats, hb]
      | some x => simp [sumFloats, hb, ih hmem]

/-! ### Claim theorems -/

/-- C1: for components in [0,100], the aggregation loop of
`calculate_comprehensive_score` produces exactly
`floor(10 · (0.35·soil + 0.25·water + 0.20·air + 0.10·crop + 0.10·risk))`
(the witness instantiates every component at 80, giving 800). -/
theorem claim_C1 (c : Components)
    (h1 : 0 ≤ c.soil_health ∧ c.soil_health ≤ 100)
    (h2 : 0 ≤ c.water_efficiency ∧ c.water_efficiency ≤ 100)
    (h3 : 0 ≤ c.air_quality ∧ c.air_quality ≤ 100)
    (h4 : 0 ≤ c.crop_health ∧ c.crop_health ≤ 100)
    (h5 : 0 ≤ c.risk_management ∧ c.risk_management ≤ 100) :
    overall10 c = Int.floor (10 * (0.35 * c.soil_health + 0.25 * c.water_efficiency
      + 0.20 * c.air_quality + 0.10 * c.crop_health + 0.10 * c.risk_management)) := by
  have h0 : (0:ℚ) ≤ (c.soil_health * 0.35 + c.water_efficiency * 0.25
      + c.air_quality * 0.20 + c.crop_health * 0.10 + c.risk_management * 0.10) * 10 := by
    nlinarith [h1.1, h2.1, h3.1, h4.1, h5.1]
  unfold overall10
  rw [pyTrunc_eq_floor h0]
  congr 1
  ring

/-- C1 witness: all five components at 80 give an overall score of exactly 800. -/
theorem claim_C1_witness : overall10 ⟨80, 80, 80, 80, 80⟩ = 800 := by
  have h := claim_C1 ⟨80, 80, 80, 80, 80⟩ (by norm_num) (by norm_num) (by norm_num)
    (by norm_num) (by norm_num)
  rw [h]
  norm_num

/-- C3: `_determine_grade` is exactly the ordered first-match-wins ladder of
the spec, and the four boundary examples evaluate as claimed. -/
theorem claim_C3 :
    (∀ score : ℤ, determine_grade score = specGrade score)
    ∧ determine_grade 900 = "A+" ∧ determine_grade 899 = "A"
    ∧ determine_grade 600 = "C+" ∧ determine_grade 599 = "C" :=
  ⟨fun _ => rfl, rfl, rfl, rfl, rfl⟩

/-- C5: an empty reading window is not an error: the soil and water
calculators return exactly 70 and the air calculator exactly 75, none of
them raising (a raise would be a `none` result). -/
theorem claim_C5 :
    calculate_soil_health_score [] = some 70
    ∧ calculate_water_efficiency_score [] = some 70
    ∧ calculate_air_quality_score [] = some 75 :=
  ⟨rfl, rfl, rfl⟩

/-- C9: on the empty incident list `analyze_fire_risk` returns risk level
low, zero nearby fires, a null closest distance and the recommendation
for normal operations. -/
theorem claim_C9 (farm_id : String) (lat lon : ℝ) :
    analyze_fire_risk farm_id lat lon [] =
      { farm_id := farm_id, risk_level := "low", nearby_fires := 0,
        closest_fire_km := none,
        recommendation := "Continue normal operations" } := by
  unfold analyze_fire_risk
  rw [if_pos rfl]

/-- A soil reading is well-formed when every metric field it carries is
numeric (missing fields are fine: the calculator substitutes defaults). -/
def wellFormedSoil (r : SoilReading) : Prop :=
  r.soil_ph ≠ some .nonNum ∧ r.soil_moisture ≠ some .nonNum ∧ r.nitrogen ≠ some .nonNum

instance : DecidablePred wellFormedSoil := fun r => by
  unfold wellFormedSoil
  infer_instance

/-- A soil reading carries at least one non-numeric metric field. -/
def hasNonNumericField (r : SoilReading) : Prop :=
  r.soil_ph = some .nonNum ∨ r.soil_moisture = some .nonNum ∨ r.nitrogen = some .nonNum

/-- C4: on a non-empty window of well-formed soil readings the soil-health
score is `round1(0.4·ph_score + 0.4·moisture_score + 0.2·nitrogen_score)`,
with each per-metric score banded 100/80/60 on the window averages. -/
theorem claim_C4 (w : List SoilReading) (hne : w ≠ [])
    (hwf : ∀ r ∈ w, wellFormedSoil r) :
    calculate_soil_health_score w =
      some (pyRound1 (0.4 * score_ph_level (avgOf (fun r => fieldVal r.soil_ph 7) w)
        + 0.4 * score_moisture_level (avgOf (fun r => fieldVal r.soil_moisture 50) w)
        + 0.2 * score_nitrogen_level (avgOf (fun r => fieldVal r.nitrogen 50) w))) := by
  have h1 : sumFloats (fun r => toFloat r.soil_ph 7) w
      = some ((w.map (fun r => fieldVal r.soil_ph 7)).sum) :=
    sumFloats_eq_of_wf _ _ _ (fun r hr => toFloat_eq_of_wf _ _ (hwf r hr).1)
  have h2 : sumFloats (fun r => toFloat r.soil_moisture 50) w
      = some ((w.map (fun r => fieldVal r.soil_moisture 50)).sum) :=
    sumFloats_eq_of_wf _ _ _ (fun r hr => toFloat_eq_of_wf _ _ (hwf r hr).2.1)
  have h3 : sumFloats (fun r => toFloat r.nitrogen 50) w
      = some ((w.map (fun r => fieldVal r.nitrogen 50)).sum) :=
    sumFloats_eq_of_wf _ _ _ (fun r hr => toFloat_eq_of_wf _ _ (hwf r hr).2.2)
  unfold calculate_soil_health_score
  rw [if_neg hne, h1, h2, h3]
  simp only [Option.bind_eq_bind, Option.some_bind, Option.some.injEq]
  unfold avgOf
  congr 1
  ring

/-- C4 witness: a single reading with pH 6.8, moisture 55, nitrogen 60
yields a soil-health score of exactly 100. -/
theorem claim_C4_witness :
    calculate_soil_health_score
      [⟨some (.num 6.8), some (.num 55), some (.num 60)⟩] = some 100 := by
  have h := claim_C4 [⟨some (.num 6.8), some (.num 55), some (.num 60)⟩]
    (by simp) (by simp [wellFormedSoil])
  rw [h]
  norm_num [avgOf, fieldVal, score_ph_level, score_moisture_level,
    score_nitrogen_level, pyRound1, rheZ]

/-- C6 counterexample: a window with one good and one malformed reading:
the code yields no score at all (`None`), not the score of the remaining
good reading. -/
theorem claim_C6_cex :
    calculate_soil_health_score
      [⟨some (.num 6.8), some (.num 55), some (.num 60)⟩,
       ⟨some .nonNum, some (.num 55), some (.num 60)⟩] = none
    ∧ calculate_soil_health_score
      [⟨some (.num 6.8), some (.num 55), some (.num 60)⟩] = some 100 := by
  constructor
  · simp [calculate_soil_health_score, sumFloats, toFloat]
  · norm_num [calculate_soil_health_score, sumFloats, toFloat, score_ph_level,
      score_moisture_level, score_nitrogen_level, pyRound1, rheZ]

/-- C6 amended: a non-numeric metric field does not discard the single
reading; it makes the whole component calculation raise, and
`calculate_comprehensive_score` catches the exception and produces no score
for the farm (returns `None`). -/
theorem claim_C6_amended (w : List SoilReading) (r : SoilReading)
    (hr : r ∈ w) (hbad : hasNonNumericField r) :
    calculate_soil_health_score w = none
    ∧ ∀ (farm_id : String) (weatherW : List WeatherReading)
        (airW : List AirReading) (alerts : List FireAlertRec),
        calculate_comprehensive_score farm_id w weatherW airW alerts = none := by
  have hne : w ≠ [] := by
    intro hw
    rw [hw] at hr
    exact List.not_mem_nil r hr
  have hsoil : calculate_soil_health_score w = none := by
    unfold calculate_soil_health_score
    rw [if_neg hne]
    rcases hbad with hb | hb | hb
    · have : sumFloats (fun s => toFloat s.soil_ph 7) w = none :=
        sumFloats_eq_none _ hr (by rw [hb]; rfl)
      simp [this]
    · have hmo : sumFloats (fun s => toFloat s.soil_moisture 50) w = none :=
        sumFloats_eq_none _ hr (by rw [hb]; rfl)
      cases hph : sumFloats (fun s => toFloat s.soil_ph 7) w with
      | none => simp [hph]
      | some x => simp [hph, hmo]
    · have hni : sumFloats (fun s => toFloat s.nitrogen 50) w = none :=
        sumFloats_eq_none _ hr (by rw [hb]; rfl)
      cases hph : sumFloats (fun s => toFloat s.soil_ph 7) w with
      | none => simp [hph]
      | some x =>
        cases hmo : sumFloats (fun s => toFloat s.soil_moisture 50) w with
        | none => simp [hph, hmo]
        | some y => simp [hph, hmo, hni]
  refine ⟨hsoil, fun farm_id weatherW airW alerts => ?_⟩
  unfold calculate_comprehensive_score
  rw [hsoil]
  rfl

/-- C6 amended witness: a single-reading window with non-numeric pH yields
no soil score and no comprehensive score. -/
theorem claim_C6_amended_witness :
    calculate_soil_health_score [⟨some .nonNum, some (.num 55), some (.num 60)⟩] = none
    ∧ calculate_comprehensive_score "FARM_001"
        [⟨some .nonNum, some (.num 55), some (.num 60)⟩] [] [] [] = none := by
  have h := claim_C6_amended [⟨some .nonNum, some (.num 55), some (.num 60)⟩]
    ⟨some .nonNum, some (.num 55), some (.num 60)⟩ (List.mem_singleton.mpr rfl)
    (Or.inl rfl)
  exact ⟨h.1, h.2 "FARM_001" [] [] []⟩

theorem main_score_loop_eq_filterMap (farms : List Farm)
    (calcFor : String → Except String (Option ScoreData)) :
    main_score_loop farms calcFor
      = farms.filterMap (fun farm =>
          match calcFor farm.id with
          | .ok (some d) => some d
          | _ => none) := by
  unfold main_score_loop
  suffices h : ∀ acc : List ScoreData,
      farms.foldl (fun stored farm =>
        match calcFor farm.id with
        | .ok (some score_data) => stored ++ [score_data]
        | .ok none => stored
        | .error _ => stored) acc
      = acc ++ farms.filterMap (fun farm =>
          match calcFor farm.id with
          | .ok (some d) => some d
          | _ => none) by
    simpa using h []
  induction farms with
  | nil => intro acc; simp
  | cons f fs ih =>
    intro acc
    rcases hc : calcFor f.id with e | od
    · simp [List.foldl_cons, List.filterMap_cons, hc, ih]
    · rcases od with _ | d
      · simp [List.foldl_cons, List.filterMap_cons, hc, ih]
      · simp [List.foldl_cons, List.filterMap_cons, hc, ih]

/-- A fixed demonstration score record for the batch-isolation example. -/
def demoScore (fid : String) : ScoreData :=
  ⟨fid, 800, "A-", ⟨80, 80, 80, 80, 80⟩, "weighted_average"⟩

/-- A per-farm computation where the second demo farm raises. -/
def demoCalc (fid : String) : Except String (Option ScoreData) :=
  if fid = "FARM_002" then .error "simulated failure"
  else .ok (some (demoScore fid))

/-- C8: the per-farm loop of `main` catches a failure inside one farm's
iteration, stores nothing for that farm, and still stores the scores of
every other farm; with three farms where the second raises, farms one and
three still get their scores. -/
theorem claim_C8 :
    (∀ (farms : List Farm) (calcFor : String → Except String (Option ScoreData)),
      main_score_loop farms calcFor
        = farms.filterMap (fun farm =>
            match calcFor farm.id with
            | .ok (some d) => some d
            | _ => none))
    ∧ main_score_loop
        [⟨"FARM_001", "Demo 1"⟩, ⟨"FARM_002", "Demo 2"⟩, ⟨"FARM_003", "Demo 3"⟩]
        demoCalc
      = [demoScore "FARM_001", demoScore "FARM_003"] := by
  refine ⟨main_score_loop_eq_filterMap, ?_⟩
  simp [main_score_loop, demoCalc]

/-! ### Fire-analyzer lemmas -/

theorem riskAssessment_zero (farm_id : String) :
    riskAssessment farm_id ⟨0, 0, none⟩
      = { farm_id := farm_id, risk_level := "low", nearby_fires := 0,
          closest_fire_km := none,
          recommendation := "Continue normal operations" } := by
  unfold riskAssessment
  simp [closestLt]

theorem fireStep_skip {lat lon : ℝ} {st : FireStats} {fire : FireIncident}
    (h : parse_incident fire = none) : fireStep lat lon st fire = st := by
  unfold fireStep
  rw [h]

theorem fireStats_foldl_filter (lat lon : ℝ) (l : List FireIncident) :
    ∀ st : FireStats,
      l.foldl (fireStep lat lon) st
        = (l.filter wellFormedIncident).foldl (fireStep lat lon) st := by
  induction l with
  | nil => intro st; rfl
  | cons i is ih =>
    intro st
    cases hp : parse_incident i with
    | none =>
      have hw : wellFormedIncident i = false := by
        simp [wellFormedIncident, hp]
      simp [List.foldl_cons, List.filter_cons, hw, fireStep_skip hp, ih]
    | some v =>
      have hw : wellFormedIncident i = true := by
        simp [wellFormedIncident, hp]
      simp [List.foldl_cons, List.filter_cons, hw, ih]

theorem fireStats_filter (lat lon : ℝ) (l : List FireIncident) :
    fireStats lat lon l = fireStats lat lon (l.filter wellFormedIncident) := by
  unfold fireStats
  exact fireStats_foldl_filter lat lon l _

/-- The loop invariant of `analyze_fire_risk`: only incidents closer than
50 km are counted, so the high-confidence count never exceeds the nearby
count, the minimum is tracked exactly when something is nearby, and the
tracked minimum is strictly below 50. -/
def fireInv (st : FireStats) : Prop :=
  st.high_confidence_fires ≤ st.nearby_fires
  ∧ (st.closest_distance = none ↔ st.nearby_fires = 0)
  ∧ ∀ x : ℝ, st.closest_distance = some x → x < 50

theorem fireStep_inv (lat lon : ℝ) (st : FireStats) (fire : FireIncident)
    (h : fireInv st) : fireInv (fireStep lat lon st fire) := by
  obtain ⟨hcn, hiff, hlt⟩ := h
  unfold fireStep
  cases hp : parse_incident fire with
  | none => exact ⟨hcn, hiff, hlt⟩
  | some v =>
    obtain ⟨fla, flo, conf⟩ := v
    dsimp only
    cases hcl : st.closest_distance with
    | none =>
      dsimp only
      split_ifs with hd hc
      · refine ⟨Nat.succ_le_succ hcn, by simp, ?_⟩
        intro x hx
        simp only [Option.some.injEq] at hx
        rw [← hx]
        exact hd
      · refine ⟨le_trans hcn (Nat.le_succ _), by simp, ?_⟩
        intro x hx
        simp only [Option.some.injEq] at hx
        rw [← hx]
        exact hd
      · exact ⟨hcn, hiff, hlt⟩
    | some c =>
      dsimp only
      have hc50 : c < 50 := hlt c hcl
      split_ifs with hd hc
      · refine ⟨Nat.succ_le_succ hcn, by simp, ?_⟩
        intro x hx
        simp only [Option.some.injEq] at hx
        rw [← hx]
        exact lt_of_le_of_lt (min_le_left c _) hc50
      · refine ⟨le_trans hcn (Nat.le_succ _), by simp, ?_⟩
        intro x hx
        simp only [Option.some.injEq] at hx
        rw [← hx]
        exact lt_of_le_of_lt (min_le_left c _) hc50
      · exact ⟨hcn, hiff, hlt⟩

theorem fireStats_inv (lat lon : ℝ) (l : List FireIncident) :
    fireInv (fireStats lat lon l) := by
  unfold fireStats
  have h : ∀ st : FireStats, fireInv st → fireInv (l.foldl (fireStep lat lon) st) := by
    induction l with
    | nil => intro st hst; exact hst
    | cons i is ih => intro st hst; exact ih _ (fireStep_inv lat lon st i hst)
  exact h _ ⟨le_refl 0, by simp, fun x hx => by simp at hx⟩

theorem rheR_le_floor_add_one (x : ℝ) : rheR x ≤ Int.floor x + 1 := by
  unfold rheR
  dsimp only
  split_ifs <;> omega

theorem pyRound1R_le_50 {x : ℝ} (h : x < 50) : pyRound1R x ≤ 50 := by
  have h1 : Int.floor ((10:ℝ) * x) < 500 := by
    rw [Int.floor_lt]
    push_cast
    linarith
  have h2 : rheR ((10:ℝ) * x) ≤ 500 :=
    le_trans (rheR_le_floor_add_one _) (by omega)
  have h3 : ((rheR ((10:ℝ) * x) : ℤ) : ℝ) ≤ 500 := by exact_mod_cast h2
  unfold pyRound1R
  linarith

/-! ### Fire-analyzer claims -/

/-- C2: on a non-empty list of well-formed incidents the risk tier is the
strict first-match ladder of the spec over the high-confidence count and
closest tracked distance, and the recommendation is the fixed string of the
tier. -/
theorem claim_C2 (farm_id : String) (lat lon : ℝ) (incidents : List FireIncident)
    (hne : incidents ≠ []) (hwf : ∀ i ∈ incidents, wellFormedIncident i = true) :
    ((analyze_fire_risk farm_id lat lon incidents).risk_level
        = specRiskLevel (fireStats lat lon incidents).high_confidence_fires
            (fireStats lat lon incidents).nearby_fires
            (fireStats lat lon incidents).closest_distance)
    ∧ (analyze_fire_risk farm_id lat lon incidents).recommendation
        = specRecommendation ((analyze_fire_risk farm_id lat lon incidents).risk_level) := by
  unfold analyze_fire_risk
  rw [if_neg hne]
  unfold riskAssessment specRiskLevel
  dsimp only
  split_ifs <;> simp [specRecommendation]

/-- A concrete well-formed incident for the C2 witness: high confidence,
111 km-degree distance 1 from the farm. -/
def demoIncident : FireIncident :=
  ⟨some (.num 1), some (.num 0), some (.num 90)⟩

/-- C2 witness: the theorem instantiated on a one-element well-formed list. -/
theorem claim_C2_witness :
    ((analyze_fire_risk "FARM_001" 0 0 [demoIncident]).risk_level
        = specRiskLevel (fireStats 0 0 [demoIncident]).high_confidence_fires
            (fireStats 0 0 [demoIncident]).nearby_fires
            (fireStats 0 0 [demoIncident]).closest_distance)
    ∧ (analyze_fire_risk "FARM_001" 0 0 [demoIncident]).recommendation
        = specRecommendation ((analyze_fire_risk "FARM_001" 0 0 [demoIncident]).risk_level) :=
  claim_C2 "FARM_001" 0 0 [demoIncident] (by simp)
    (by
      intro i hi
      rw [List.mem_singleton] at hi
      subst hi
      rfl)

/-- C7: `analyze_fire_risk` silently skips incidents with a non-numeric
latitude, longitude or confidence and its result is exactly the analysis of
the well-formed sublist. -/
theorem claim_C7 (farm_id : String) (lat lon : ℝ) (incidents : List FireIncident) :
    analyze_fire_risk farm_id lat lon incidents
      = analyze_fire_risk farm_id lat lon (incidents.filter wellFormedIncident) := by
  by_cases hemp : incidents = []
  · subst hemp
    rfl
  · unfold analyze_fire_risk
    rw [if_neg hemp]
    by_cases hf : incidents.filter wellFormedIncident = []
    · rw [if_pos hf]
      have hz : fireStats lat lon incidents = ⟨0, 0, none⟩ := by
        rw [fireStats_filter, hf]
        rfl
      rw [hz, riskAssessment_zero]
    · rw [if_neg hf, fireStats_filter]

/-- C10 counterexample incident: distance from the farm at the origin is
exactly 49.96 km (1249/2775 degrees times 111), inside the 50 km radius,
but `round(49.96, 1)` at one decimal is exactly 50.0. -/
def cexIncident : FireIncident :=
  ⟨some (.num (1249/2775)), some (.num 0), some (.num 80)⟩

theorem cex_distance_eval :
    calculate_distance 0 0 ((1249/2775 : ℚ) : ℝ) ((0 : ℚ) : ℝ) = 1249/25 := by
  unfold calculate_distance
  push_cast
  rw [show ((1249/2775 : ℝ) - 0) ^ 2 + ((0 : ℝ) - 0) ^ 2 = (1249/2775 : ℝ) ^ 2 by ring]
  rw [Real.sqrt_sq (by norm_num)]
  norm_num

theorem cex_stats_eval : fireStats 0 0 [cexIncident] = ⟨1, 1, some (1249/25)⟩ := by
  unfold fireStats
  simp only [List.foldl_cons, List.foldl_nil]
  unfold fireStep
  rw [show parse_incident cexIncident = some (1249/2775, 0, pyTrunc 80) from rfl]
  dsimp only
  rw [cex_distance_eval, if_pos (by norm_num : (1249/25 : ℝ) < 50),
    if_pos (by norm_num [pyTrunc] : pyTrunc 80 > 75)]

theorem cex_round_eval : pyRound1R (1249/25) = 50 := by
  unfold pyRound1R rheR
  have hfl : Int.floor ((10 : ℝ) * (1249/25)) = 499 := by
    rw [Int.floor_eq_iff]
    constructor <;> norm_num
  dsimp only
  rw [hfl]
  rw [if_neg (by push_cast; norm_num), if_pos (by push_cast; norm_num)]
  norm_num

theorem cex_analyze_eval :
    analyze_fire_risk "FARM_001" 0 0 [cexIncident]
      = { farm_id := "FARM_001", risk_level := "high", nearby_fires := 1,
          closest_fire_km := some 50,
          recommendation := "Prepare for potential evacuation" } := by
  unfold analyze_fire_risk
  rw [if_neg (by simp), cex_stats_eval]
  unfold riskAssessment
  rw [if_neg (by simp [closestLt]; norm_num), if_pos (by simp)]
  simp [cex_round_eval]

/-- C10 counterexample: the reported closest distance can equal exactly 50
(rounding of the tracked 49.96), so it is not strictly below 50. -/
theorem claim_C10_cex :
    (analyze_fire_risk "FARM_001" 0 0 [cexIncident]).closest_fire_km = some 50
    ∧ ¬ (∀ d : ℝ,
        (analyze_fire_risk "FARM_001" 0 0 [cexIncident]).closest_fire_km = some d
          → d < 50) := by
  constructor
  · rw [cex_analyze_eval]
  · intro hall
    exact lt_irrefl (50 : ℝ) (hall 50 (by rw [cex_analyze_eval]))

/-- C10 amended: incidents at distance ≥ 50 km contribute nothing, so the
high-confidence count never exceeds the nearby count, the reported closest
distance is null exactly when the nearby count is zero, and a non-null
reported closest distance is at most 50 (the tracked minimum is strictly
below 50, but its one-decimal rounding can reach exactly 50). -/
theorem claim_C10_amended (farm_id : String) (lat lon : ℝ)
    (incidents : List FireIncident) :
    (fireStats lat lon incidents).high_confidence_fires
        ≤ (fireStats lat lon incidents).nearby_fires
    ∧ ((analyze_fire_risk farm_id lat lon incidents).closest_fire_km = none
        ↔ (analyze_fire_risk farm_id lat lon incidents).nearby_fires = 0)
    ∧ ∀ d : ℝ,
        (analyze_fire_risk farm_id lat lon incidents).closest_fire_km = some d
          → d ≤ 50 := by
  obtain ⟨h1, h2, h3⟩ := fireStats_inv lat lon incidents
  refine ⟨h1, ?_, ?_⟩
  · by_cases hemp : incidents = []
    · subst hemp
      simp [analyze_fire_risk]
    · unfold analyze_fire_risk
      rw [if_neg hemp]
      unfold riskAssessment
      dsimp only
      rw [Option.map_eq_none']
      exact h2
  · intro d hd
    by_cases hemp : incidents = []
    · subst hemp
      simp [analyze_fire_risk] at hd
    · unfold analyze_fire_risk at hd
      rw [if_neg hemp] at hd
      unfold riskAssessment at hd
      dsimp only at hd
      rw [Option.map_eq_some'] at hd
      obtain ⟨x, hx, hxd⟩ := hd
      rw [← hxd]
      exact pyRound1R_le_50 (h3 x hx)

/-- C10 witness: the amended theorem applied at the counterexample incident,
its reported-distance bound discharged at the reported value 50. -/
theorem claim_C10_witness :
    (fireStats 0 0 [cexIncident]).high_confidence_fires
        ≤ (fireStats 0 0 [cexIncident]).nearby_fires
    ∧ (50 : ℝ) ≤ 50 :=
  ⟨(claim_C10_amended "FARM_001" 0 0 [cexIncident]).1,
   (claim_C10_amended "FARM_001" 0 0 [cexIncident]).2.2 50
     (by rw [cex_analyze_eval])⟩

end BotanicaX
